import Mathlib

/-!
Verification development for the alarm scheduler skill
(`private_assistant_alarm_scheduler_skill`).

The Python source is shallowly embedded: `datetime` values become a record
of calendar-free fields (`day` counts whole days since an arbitrary epoch,
so `+ timedelta(days=1)` is `day + 1`; Python compares datetimes
field-lexicographically, which the embedding mirrors), database state
becomes a list of rows in insertion order, the asyncio timer becomes an
optional target instant, and the croniter library becomes a bounded
forward search for the least matching tick instant strictly after a base.
Fallible computations return `Option`.
-/

namespace AlarmSkill

/-- Embedding of a Python `datetime.datetime` as used by the skill.
`day` is the number of whole days since an arbitrary epoch (Python's
date arithmetic `+ timedelta(days=1)` is exactly `day + 1` under this
reading); the remaining fields are the time-of-day components.  Python
keeps every field in range (`replace` validates its arguments), and
compares datetimes field-lexicographically from most to least
significant, which `pyLt` mirrors. -/
structure PyDateTime where
  day : Nat
  hour : Nat
  minute : Nat
  second : Nat
  microsecond : Nat
deriving DecidableEq, Repr

/-- Python `<` on datetimes: lexicographic over
(day, hour, minute, second, microsecond). -/
def pyLt (a b : PyDateTime) : Bool :=
  if a.day < b.day then true
  else if b.day < a.day then false
  else if a.hour < b.hour then true
  else if b.hour < a.hour then false
  else if a.minute < b.minute then true
  else if b.minute < a.minute then false
  else if a.second < b.second then true
  else if b.second < a.second then false
  else decide (a.microsecond < b.microsecond)

/-- Total number of microseconds since the epoch represented by a
`PyDateTime` whose fields are in range; used to embed Python
`timedelta.total_seconds` arithmetic exactly (in microseconds rather
than float seconds). -/
def toMicros (t : PyDateTime) : Nat :=
  (((t.day * 24 + t.hour) * 60 + t.minute) * 60 + t.second) * 1000000 + t.microsecond

/-! ## Action matching (`Action.find_matching_action`, skill lines 26-42) -/

/-- The six request actions, in the enumeration order of the Python
`Action` enum. -/
inductive Action where
  | HELP
  | SET
  | SKIP
  | BREAK
  | CONTINUE
  | GET_ACTIVE
deriving DecidableEq, Repr

/-- The keyword list attached to each enum member (the Python enum
values). -/
def Action.value : Action → List String
  | .HELP => ["help"]
  | .SET => ["set"]
  | .SKIP => ["skip"]
  | .BREAK => ["break"]
  | .CONTINUE => ["continue"]
  | .GET_ACTIVE => ["current"]

/-- The members of the `Action` enum in enumeration order (`for action
in cls`). -/
def actionOrder : List Action :=
  [Action.HELP, Action.SET, Action.SKIP, Action.BREAK, Action.CONTINUE, Action.GET_ACTIVE]

/-- Membership test for Python's `string.punctuation`, which is exactly
the ASCII characters 33-47, 58-64, 91-96 and 123-126. -/
def isPyPunctuation (c : Char) : Bool :=
  (33 ≤ c.toNat && c.toNat ≤ 47) || (58 ≤ c.toNat && c.toNat ≤ 64) ||
  (91 ≤ c.toNat && c.toNat ≤ 96) || (123 ≤ c.toNat && c.toNat ≤ 126)

/-- `text.translate(str.maketrans("", "", string.punctuation))`: delete
every punctuation character. -/
def stripPunctuation (s : String) : String :=
  String.mk (s.data.filter (fun c => !isPyPunctuation c))

/-- `str.lower` restricted to the ASCII letters the keyword sets use
(the keywords are all ASCII; non-ASCII case mapping is irrelevant to the
match and left as the identity). -/
def pyLowerChar (c : Char) : Char :=
  if 65 ≤ c.toNat && c.toNat ≤ 90 then Char.ofNat (c.toNat + 32) else c

/-- ASCII whitespace for `str.split()` with no separator: space, tab,
newline, carriage return, vertical tab, form feed. -/
def isPySpace (c : Char) : Bool :=
  c.toNat = 32 || c.toNat = 9 || c.toNat = 10 || c.toNat = 13 || c.toNat = 11 || c.toNat = 12

/-- Worker for `str.split()`: accumulate the current word (reversed) and
emit it at each whitespace run boundary, dropping empty words. -/
def splitWordsAux : List Char → List Char → List String
  | [], acc => if acc.isEmpty then [] else [String.mk acc.reverse]
  | c :: cs, acc =>
    if isPySpace c then
      if acc.isEmpty then splitWordsAux cs []
      else String.mk acc.reverse :: splitWordsAux cs []
    else splitWordsAux cs (c :: acc)

/-- `str.split()` with no argument: split on whitespace runs, no empty
words. -/
def pySplit (s : String) : List String :=
  splitWordsAux s.data []

/-- The word collection built by `find_matching_action`: punctuation
stripped, lowercased, split on whitespace.  (Python wraps it in `set`;
only membership is ever queried, so the list with `contains` is an
exact model.) -/
def textWords (text : String) : List String :=
  pySplit (String.mk ((stripPunctuation text).data.map pyLowerChar))

/-- Whether every keyword of `a` occurs among the request's words
(`all(word in text_words for word in action.value)`). -/
def actionMatches (a : Action) (ws : List String) : Bool :=
  a.value.all (fun w => ws.contains w)

/-- `Action.find_matching_action` (skill lines 34-42): first action in
enumeration order whose full keyword list appears among the words of the
cleaned text; `none` when no action matches. -/
def find_matching_action (text : String) : Option Action :=
  actionOrder.find? (fun a => actionMatches a (textWords text))

/-! ## Time rendering for speech (`tools_time_units.format_time_for_tts`) -/

/-- `format_time_for_tts` (tools_time_units.py lines 4-18), the
`with_date=False` path: the three-way branch on the minute.  (With
`with_date=True` the same string is prefixed by an strftime-rendered
calendar date; the calendar is outside this embedding and untouched by
the claims, which are about the minute branches.) -/
def format_time_for_tts (time : PyDateTime) : String :=
  let hour := time.hour
  let minute := time.minute
  if minute = 0 then Nat.repr hour ++ " o\x27clock"
  else if minute < 10 then Nat.repr minute ++ " past " ++ Nat.repr hour
  else Nat.repr minute ++ " past " ++ Nat.repr hour

/-! ## Parameter extraction for Set (`find_parameters`, skill lines 84-120) -/

/-- One entry of `intent_analysis_result.numbers`: the parsed number and
the token that follows it in the request. -/
structure NumberResult where
  number_token : Nat
  next_token : String
deriving DecidableEq, Repr

/-- `datetime.now().replace(hour=6, minute=0, second=0, microsecond=0)`
(skill line 92): the default 06:00:00.000000 of the current day. -/
def defaultAlarmTime (now : PyDateTime) : PyDateTime :=
  { now with hour := 6, minute := 0, second := 0, microsecond := 0 }

/-- The loop of skill lines 93-99: fold the parsed numbers over the
default time, `replace`-ing the hour for "o'clock"/"hours", the minute
for "minutes" and the second for "seconds"; other tokens are ignored.
(Python's `replace` validates that the new field is in range; the
embedding assumes in-range tokens, as every claim does.) -/
def applyNumbers (start : PyDateTime) (numbers : List NumberResult) : PyDateTime :=
  numbers.foldl
    (fun t r =>
      if r.next_token = "o\x27clock" || r.next_token = "hours" then
        { t with hour := r.number_token }
      else if r.next_token = "minutes" then { t with minute := r.number_token }
      else if r.next_token = "seconds" then { t with second := r.number_token }
      else t)
    start

/-- The `Action.SET` branch of `find_parameters` (skill lines 90-101):
start from 06:00 of the current day, apply the parsed number tokens,
then add one day when the result is strictly earlier than `now`.
(The Python reads the clock twice, at lines 92 and 100; the embedding
uses a single `now` for both reads.) -/
def find_parameters_set_time (now : PyDateTime) (numbers : List NumberResult) : PyDateTime :=
  let t := applyNumbers (defaultAlarmTime now) numbers
  if pyLt t now then { t with day := t.day + 1 } else t

/-! ## Recurrence evaluation (`calculate_next_cron_execution`, lines 122-139)

The skill delegates to the external croniter library:
`croniter(cron_expression, now).get_next(datetime)` yields the least
instant matching the cron expression strictly after the iterator's
current base and advances the base to it.  The embedding abstracts
instants to `Nat` ticks and a parsed cron expression to its matching
predicate `cronMatch : Nat → Bool`; `get_next` is a bounded forward search
(croniter likewise searches forward and gives up on expressions with no
reachable occurrence, which the fuel's `none` models). -/

/-- `croniter.get_next` from base `base`: the least tick strictly
greater than `base` that matches, found within `fuel` steps. -/
def cronGetNext (cronMatch : Nat → Bool) (base : Nat) : Nat → Option Nat
  | 0 => none
  | fuel + 1 =>
    if cronMatch (base + 1) then some (base + 1) else cronGetNext cronMatch (base + 1) fuel

/-- `calculate_next_cron_execution` (skill lines 122-139): one
`get_next` from `now`, preceded by a discarded `get_next` when
`skip_next` is true (which leaves the iterator based at the first
occurrence). -/
def calculate_next_cron_execution (cronMatch : Nat → Bool) (now fuel : Nat)
    (skip_next : Bool) : Option Nat :=
  if skip_next then
    match cronGetNext cronMatch now fuel with
    | none => none
    | some t1 => cronGetNext cronMatch t1 fuel
  else
    cronGetNext cronMatch now fuel

/-! ## The alarm store (`register_alarm`, `break_execution`, `get_active`) -/

/-- A row of the `ASSActiveAlarm` table (models/active_alarm.py).  The
opaque autoincrement `id` plays no role in any claim and is omitted;
`scheduled_time` is optional because `Parameters.alarm_time` is. -/
structure ASSActiveAlarm where
  name : String
  scheduled_time : Option PyDateTime
deriving DecidableEq, Repr

/-- The `Parameters` pydantic model (skill lines 21-23). -/
structure Parameters where
  alarm_time : Option PyDateTime := none
  alarm_name : String := "Default Cron Alarm"
deriving DecidableEq, Repr

/-- The store: the rows of the single table, in insertion order (the
order an unfiltered `select` returns them and `first()` consumes
them). -/
abbrev AlarmStore := List ASSActiveAlarm

/-- The database half of `register_alarm` (skill lines 141-157): fetch
the first existing row, delete it if present, then insert the new
alarm built from the parameters. -/
def register_alarm (store : AlarmStore) (p : Parameters) : AlarmStore :=
  let remaining : AlarmStore :=
    match store with
    | [] => []
    | _ :: rest => rest
  remaining ++ [{ name := p.alarm_name, scheduled_time := p.alarm_time }]

/-- The database half of `break_execution` (skill lines 202-209): fetch
all rows and delete each one. -/
def break_execution (_store : AlarmStore) : AlarmStore := []

/-- The query of `skill_preparations` and of the `GET_ACTIVE` branch of
`find_parameters` (skill lines 103-110):
`select(ASSActiveAlarm).where(scheduled_time > now)` then `first()`.
A SQL comparison against NULL is not true, so a row with no
`scheduled_time` never satisfies the filter. -/
def get_active (store : AlarmStore) (now : PyDateTime) : Option ASSActiveAlarm :=
  (store.filter
      (fun a =>
        match a.scheduled_time with
        | some t => pyLt now t
        | none => false)).head?

/-! ## Timer arming and the fire path (skill lines 162-200) -/

/-- `set_next_alarm` line 163: `(scheduled_time - datetime.now())
.total_seconds()`, embedded exactly in integer microseconds.  The
Python performs no clamping; the difference is negative whenever the
scheduled time is already past. -/
def set_next_alarm_delay (scheduled now : PyDateTime) : Int :=
  (toMicros scheduled : Int) - (toMicros now : Int)

/-- The in-process scheduling state the fire path touches: the stored
rows and the target instant of the armed `trigger_alarm_after_delay`
task, if one is armed. -/
structure SkillState where
  store : AlarmStore
  timerTarget : Option PyDateTime
deriving DecidableEq, Repr

/-- `set_next_alarm` (skill lines 162-171): cancel any armed task and
arm a new one targeting `scheduled`. -/
def set_next_alarm (s : SkillState) (scheduled : PyDateTime) : SkillState :=
  { s with timerTarget := some scheduled }

/-- `set_next_alarm_from_cron` (skill lines 194-200) given the instant
`next` that `calculate_next_cron_execution(skip_next=False)` returned:
`register_alarm(Parameters(alarm_time=next))` — which stores the alarm
under the default name and then arms the timer for it. -/
def set_next_alarm_from_cron (s : SkillState) (next : PyDateTime) : SkillState :=
  let store2 := register_alarm s.store { alarm_time := some next }
  set_next_alarm { s with store := store2 } next

/-- Outcome of the `httpx` POST to the webhook: a response with a
status code and body text, or a transport-level failure. -/
inductive HttpResult where
  | response (status : Nat) (text : String)
  | transportFailure (msg : String)
deriving DecidableEq, Repr

/-- Whether the HTTP interaction succeeded: a response arrived and its
status is 2xx (`httpx.Response.raise_for_status` raises
`HTTPStatusError` for every non-2xx status). -/
def is_success_http : HttpResult → Bool
  | .response status _ => 200 ≤ status && status < 300
  | .transportFailure _ => false

/-- Severity of a log record emitted by the fire path. -/
inductive LogLevel where
  | info
  | error
deriving DecidableEq, Repr

/-- The JSON body of the webhook POST (skill line 182):
`{"message": "Alarm triggered", "alarm_time": datetime.now().isoformat()}`.
`alarm_time` holds the instant that is serialized to ISO-8601 — which
the code takes from the clock at the moment of the POST. -/
structure Payload where
  message : String
  alarm_time : PyDateTime
deriving DecidableEq, Repr

/-- Everything `trigger_alarm` produces: the payload it POSTs, the log
records the try/except emits, and the state after the unconditional
`set_next_alarm_from_cron`. -/
structure TriggerOutput where
  payload : Payload
  logs : List (LogLevel × String)
  state : SkillState
deriving DecidableEq, Repr

/-- `trigger_alarm` (skill lines 177-192).  `now` is the clock reading
at the POST; `next` is the instant the subsequent
`calculate_next_cron_execution(skip_next=False)` yields.  The body
POSTs `{"message": "Alarm triggered", "alarm_time": now}`, logs info on
success, logs (and swallows) an error for a non-2xx status via the
`HTTPStatusError` handler and for any other exception via the blanket
`except Exception` handler, and in every case falls through to
`set_next_alarm_from_cron`. -/
def trigger_alarm (s : SkillState) (http : HttpResult) (now next : PyDateTime) : TriggerOutput :=
  let payload : Payload := { message := "Alarm triggered", alarm_time := now }
  let logs : List (LogLevel × String) :=
    match http with
    | .response status text =>
      if 200 ≤ status && status < 300 then
        [(LogLevel.info, "Alarm triggered successfully.")]
      else
        [(LogLevel.error,
          "Failed to trigger alarm: " ++ Nat.repr status ++ " " ++ text)]
    | .transportFailure msg =>
      [(LogLevel.error, "An error occurred while triggering alarm: " ++ msg)]
  { payload := payload, logs := logs, state := set_next_alarm_from_cron s next }

/-- Whether the fire path emitted an error-level log record. -/
def errorLogged (out : TriggerOutput) : Bool :=
  out.logs.any (fun l =>
    match l.1 with
    | LogLevel.error => true
    | LogLevel.info => false)

/-- The actions enumerated strictly before a given action (used to state
first-match-wins). -/
def actionsBefore : Action → List Action
  | .HELP => []
  | .SET => [.HELP]
  | .SKIP => [.HELP, .SET]
  | .BREAK => [.HELP, .SET, .SKIP]
  | .CONTINUE => [.HELP, .SET, .SKIP, .BREAK]
  | .GET_ACTIVE => [.HELP, .SET, .SKIP, .BREAK, .CONTINUE]

/-! ## Helper lemmas -/

lemma action_forall (P : Action → Prop) :
    (∀ a : Action, P a) ↔
      (P .HELP ∧ P .SET ∧ P .SKIP ∧ P .BREAK ∧ P .CONTINUE ∧ P .GET_ACTIVE) := by
  constructor
  · intro h
    exact ⟨h _, h _, h _, h _, h _, h _⟩
  · rintro ⟨h1, h2, h3, h4, h5, h6⟩ a
    cases a <;> assumption

/-- On a store already holding at most one row, `register_alarm` leaves
exactly the freshly inserted row. -/
lemma register_alarm_singleton (store : AlarmStore) (p : Parameters)
    (h : store.length ≤ 1) :
    register_alarm store p = [{ name := p.alarm_name, scheduled_time := p.alarm_time }] := by
  cases store with
  | nil => rfl
  | cons a rest =>
    cases rest with
    | nil => rfl
    | cons b rest2 => simp at h

/-- The number-token loop only rewrites time-of-day fields; the day is
untouched. -/
lemma applyNumbers_day (start : PyDateTime) (numbers : List NumberResult) :
    (applyNumbers start numbers).day = start.day := by
  induction numbers generalizing start with
  | nil => rfl
  | cons r rs ih =>
    have hstep : applyNumbers start (r :: rs) =
        applyNumbers
          (if r.next_token = "o\x27clock" || r.next_token = "hours" then
            { start with hour := r.number_token }
          else if r.next_token = "minutes" then { start with minute := r.number_token }
          else if r.next_token = "seconds" then { start with second := r.number_token }
          else start) rs := rfl
    rw [hstep, ih]
    split
    · rfl
    · split
      · rfl
      · split
        · rfl
        · rfl

/-- A successful `cronGetNext` search yields a tick strictly after the
base. -/
lemma cronGetNext_gt (m : Nat → Bool) :
    ∀ fuel base t : Nat, cronGetNext m base fuel = some t → base < t := by
  intro fuel
  induction fuel with
  | zero =>
    intro base t h
    simp [cronGetNext] at h
  | succ n ih =>
    intro base t h
    unfold cronGetNext at h
    by_cases hm : m (base + 1)
    · rw [if_pos hm] at h
      have : base + 1 = t := Option.some.inj h
      omega
    · rw [if_neg hm] at h
      have := ih (base + 1) t h
      omega

/-! ## Claim theorems -/

/-- Claim C2: whenever both computations succeed, the next-occurrence
computation with `skip_next = false` returns an instant strictly after
the reference instant `now`, the computation with `skip_next = true`
returns an instant strictly after that, and neither result is ≤ `now`. -/
theorem c2_next_occurrence_strictly_increasing (m : Nat → Bool) (now fuel t0 t1 : Nat)
    (h0 : calculate_next_cron_execution m now fuel false = some t0)
    (h1 : calculate_next_cron_execution m now fuel true = some t1) :
    now < t0 ∧ now < t1 ∧ t0 < t1 := by
  unfold calculate_next_cron_execution at h0 h1
  rw [if_neg (by simp)] at h0
  rw [if_pos rfl] at h1
  rw [h0] at h1
  have g0 := cronGetNext_gt m fuel now t0 h0
  have g1 := cronGetNext_gt m fuel t0 t1 h1
  exact ⟨g0, by omega, g1⟩

/-- Witness for C2 at the schedule "every third tick", reference tick 1:
skip 0 yields tick 3, skip 1 yields tick 6, and the strict inequalities
follow from the claim theorem. -/
theorem c2_witness :
    calculate_next_cron_execution (fun t => t % 3 == 0) 1 10 false = some 3 ∧
    calculate_next_cron_execution (fun t => t % 3 == 0) 1 10 true = some 6 ∧
    (1 < 3 ∧ 1 < 6 ∧ 3 < 6) :=
  ⟨by decide, by decide,
    c2_next_occurrence_strictly_increasing (fun t => t % 3 == 0) 1 10 3 6
      (by decide) (by decide)⟩

/-- Claim C3: from a store holding at most one alarm, registering an
alarm (the path shared by Set, Skip, Continue and the re-arm after
Fire) leaves exactly one row, and Break leaves zero rows. -/
theorem c3_store_single_slot (store : AlarmStore) (p : Parameters)
    (h : store.length ≤ 1) :
    (register_alarm store p).length = 1 ∧ (break_execution store).length = 0 := by
  rw [register_alarm_singleton store p h]
  exact ⟨rfl, rfl⟩

/-- Witness for C3: a store holding one alarm, re-registered with a new
time, holds exactly one row; breaking it leaves zero. -/
theorem c3_witness :
    (([{ name := "User Alarm", scheduled_time := some ⟨0, 6, 0, 0, 0⟩ }] :
        AlarmStore).length ≤ 1) ∧
    (register_alarm [{ name := "User Alarm", scheduled_time := some ⟨0, 6, 0, 0, 0⟩ }]
        { alarm_time := some ⟨1, 6, 0, 0, 0⟩, alarm_name := "User Alarm" }).length = 1 ∧
    (break_execution [{ name := "User Alarm", scheduled_time := some ⟨0, 6, 0, 0, 0⟩ }]).length = 0 :=
  ⟨by decide,
    (c3_store_single_slot _ _ (by decide)).1,
    (c3_store_single_slot
      [{ name := "User Alarm", scheduled_time := some ⟨0, 6, 0, 0, 0⟩ }]
      { alarm_time := some ⟨1, 6, 0, 0, 0⟩, alarm_name := "User Alarm" } (by decide)).2⟩

/-- Claim C8: after Set registers an alarm with time `T` over a store
holding at most one row, `get_active` returns that alarm (same time)
for every `now` strictly before `T`, and none for every `now` not
strictly before `T`. -/
theorem c8_set_then_get_active (store : AlarmStore) (name : String) (T now : PyDateTime)
    (h : store.length ≤ 1) :
    (pyLt now T = true →
      get_active (register_alarm store { alarm_time := some T, alarm_name := name }) now =
        some { name := name, scheduled_time := some T }) ∧
    (pyLt now T = false →
      get_active (register_alarm store { alarm_time := some T, alarm_name := name }) now =
        none) := by
  rw [register_alarm_singleton store _ h]
  unfold get_active
  constructor
  · intro hlt
    simp [hlt]
  · intro hlt
    simp [hlt]

/-- Witness for C8: set an alarm for 08:00 of day 0 over an empty
store; queried at 07:00 it is returned with the same time, queried at
09:00 the query is empty. -/
theorem c8_witness :
    (([] : AlarmStore).length ≤ 1) ∧
    pyLt ⟨0, 7, 0, 0, 0⟩ ⟨0, 8, 0, 0, 0⟩ = true ∧
    pyLt ⟨0, 9, 0, 0, 0⟩ ⟨0, 8, 0, 0, 0⟩ = false ∧
    get_active (register_alarm []
        { alarm_time := some ⟨0, 8, 0, 0, 0⟩, alarm_name := "User Alarm" }) ⟨0, 7, 0, 0, 0⟩ =
      some { name := "User Alarm", scheduled_time := some ⟨0, 8, 0, 0, 0⟩ } ∧
    get_active (register_alarm []
        { alarm_time := some ⟨0, 8, 0, 0, 0⟩, alarm_name := "User Alarm" }) ⟨0, 9, 0, 0, 0⟩ =
      none :=
  ⟨by decide, by decide, by decide,
    (c8_set_then_get_active [] "User Alarm" ⟨0, 8, 0, 0, 0⟩ ⟨0, 7, 0, 0, 0⟩ (by decide)).1
      (by decide),
    (c8_set_then_get_active [] "User Alarm" ⟨0, 8, 0, 0, 0⟩ ⟨0, 9, 0, 0, 0⟩ (by decide)).2
      (by decide)⟩

/-- Claim C10: the `minute < 10` and `minute ≥ 10` branches of the
speech rendering are equivalent — every nonzero minute renders as
"minute past hour" with no padding or special casing, and only minute 0
renders as "hour o'clock". -/
theorem c10_tts_branches_equivalent (t : PyDateTime) :
    format_time_for_tts t =
      (if t.minute = 0 then Nat.repr t.hour ++ " o\x27clock"
       else Nat.repr t.minute ++ " past " ++ Nat.repr t.hour) := by
  unfold format_time_for_tts
  by_cases h0 : t.minute = 0
  · simp [h0]
  · by_cases h10 : t.minute < 10
    · simp [h0, h10]
    · simp [h0, h10]

/-- Counterexample to Claim C4: with `now` exactly 06:00:00.000000 of
day 5, the default 06:00 of the current day is not in the future
(it equals `now`), so the claim mandates 06:00 of day 6; the code's
roll condition is the strict `alarm_time < now`, so it keeps 06:00 of
day 5. -/
theorem c4_counterexample :
    pyLt (⟨5, 6, 0, 0, 0⟩ : PyDateTime) (defaultAlarmTime ⟨5, 6, 0, 0, 0⟩) = false ∧
    find_parameters_set_time ⟨5, 6, 0, 0, 0⟩ [] = ⟨5, 6, 0, 0, 0⟩ ∧
    find_parameters_set_time ⟨5, 6, 0, 0, 0⟩ [] ≠ ⟨6, 6, 0, 0, 0⟩ := by
  refine ⟨by decide, by decide, by decide⟩

/-- Claim C4 as amended: a Set with no explicit time schedules
06:00:00.000000 of the current day whenever that instant is not
strictly earlier than `now` (in particular also when `now` is exactly
06:00), and 06:00 of the next day when it is strictly earlier. -/
theorem c4_amended_default_six (now : PyDateTime) :
    find_parameters_set_time now [] =
      (if pyLt (defaultAlarmTime now) now then
        { defaultAlarmTime now with day := now.day + 1 }
       else defaultAlarmTime now) := by
  unfold find_parameters_set_time applyNumbers
  simp only [List.foldl_nil]
  rfl

/-- Claim C9: for a Set carrying explicit time tokens, when the
resulting time-of-day on the current day is strictly earlier than
`now`, the scheduled alarm is that same time-of-day on the next day
(the roll-to-next-day rule is not special to the 06:00 default). -/
theorem c9_explicit_time_rolls (now : PyDateTime) (numbers : List NumberResult)
    (h : pyLt (applyNumbers (defaultAlarmTime now) numbers) now = true) :
    find_parameters_set_time now numbers =
      { applyNumbers (defaultAlarmTime now) numbers with
          day := (applyNumbers (defaultAlarmTime now) numbers).day + 1 } ∧
    (applyNumbers (defaultAlarmTime now) numbers).day = now.day := by
  constructor
  · unfold find_parameters_set_time
    rw [if_pos h]
  · rw [applyNumbers_day]
    rfl

/-- Witness for C9: at 07:00 of day 5, "6 hours" yields 06:00 of the
current day, which is earlier than now, so the alarm lands on 06:00 of
day 6. -/
theorem c9_witness :
    pyLt (applyNumbers (defaultAlarmTime ⟨5, 7, 0, 0, 0⟩)
        [{ number_token := 6, next_token := "hours" }]) ⟨5, 7, 0, 0, 0⟩ = true ∧
    find_parameters_set_time ⟨5, 7, 0, 0, 0⟩ [{ number_token := 6, next_token := "hours" }] =
      { applyNumbers (defaultAlarmTime ⟨5, 7, 0, 0, 0⟩)
          [{ number_token := 6, next_token := "hours" }] with
          day := (applyNumbers (defaultAlarmTime ⟨5, 7, 0, 0, 0⟩)
            [{ number_token := 6, next_token := "hours" }]).day + 1 } :=
  ⟨by decide,
    (c9_explicit_time_rolls ⟨5, 7, 0, 0, 0⟩
      [{ number_token := 6, next_token := "hours" }] (by decide)).1⟩

/-- Counterexample to Claim C5: for a target one hour in the past, the
value handed to the delayed-fire task is negative — `set_next_alarm`
computes `scheduled_time - now` with no clamping. -/
theorem c5_counterexample :
    set_next_alarm_delay ⟨0, 6, 0, 0, 0⟩ ⟨0, 7, 0, 0, 0⟩ < 0 := by decide

/-- Claim C5 as amended: the delay handed to the delayed-fire task is
exactly target minus now, unclamped; it is negative precisely when the
target instant is in the past. -/
theorem c5_amended_delay_unclamped (scheduled now : PyDateTime) :
    set_next_alarm_delay scheduled now < 0 ↔ toMicros scheduled < toMicros now := by
  unfold set_next_alarm_delay
  omega

/-- Counterexample to Claim C1: an alarm stored (and armed) for
06:30:00 of day 0 fires with the clock at 06:30:02; the POSTed JSON
body carries that clock reading as `alarm_time`, not the stored
scheduled_time. -/
theorem c1_counterexample :
    (trigger_alarm
        { store := [{ name := "User Alarm", scheduled_time := some ⟨0, 6, 30, 0, 0⟩ }],
          timerTarget := some ⟨0, 6, 30, 0, 0⟩ }
        (HttpResult.response 200 "ok") ⟨0, 6, 30, 2, 0⟩ ⟨1, 6, 0, 0, 0⟩).payload =
      { message := "Alarm triggered", alarm_time := ⟨0, 6, 30, 2, 0⟩ } ∧
    (trigger_alarm
        { store := [{ name := "User Alarm", scheduled_time := some ⟨0, 6, 30, 0, 0⟩ }],
          timerTarget := some ⟨0, 6, 30, 0, 0⟩ }
        (HttpResult.response 200 "ok") ⟨0, 6, 30, 2, 0⟩ ⟨1, 6, 0, 0, 0⟩).payload.alarm_time ≠
      ⟨0, 6, 30, 0, 0⟩ := by
  refine ⟨by decide, by decide⟩

/-- Claim C1 as amended: for every Fire the POSTed JSON body is
`{"message": "Alarm triggered", "alarm_time": <now>}` where `<now>` is
the clock reading at the moment of the POST (serialized ISO-8601) —
independent of the stored alarm; it coincides with the stored
scheduled_time only when the trigger fires exactly at that instant. -/
theorem c1_amended_payload_is_now (s : SkillState) (http : HttpResult)
    (now next : PyDateTime) :
    (trigger_alarm s http now next).payload =
      { message := "Alarm triggered", alarm_time := now } := rfl

/-- Claim C6: whatever the notifier outcome — 2xx success, non-2xx
status, or transport error — `trigger_alarm` never propagates the
failure, logs an error exactly on non-success, and unconditionally
re-schedules: the store ends holding exactly the next cron occurrence
under the default name and the timer is re-armed for it. -/
theorem c6_fire_always_rearms (s : SkillState) (http : HttpResult)
    (now next : PyDateTime) (h : s.store.length ≤ 1) :
    (trigger_alarm s http now next).state.timerTarget = some next ∧
    (trigger_alarm s http now next).state.store =
      [{ name := "Default Cron Alarm", scheduled_time := some next }] ∧
    errorLogged (trigger_alarm s http now next) = !is_success_http http := by
  refine ⟨rfl, ?_, ?_⟩
  · show (set_next_alarm_from_cron s next).store = _
    unfold set_next_alarm_from_cron set_next_alarm
    simp only
    rw [register_alarm_singleton s.store _ h]
  · cases http with
    | response status text =>
      by_cases hs : 200 ≤ status && status < 300
      · simp [trigger_alarm, errorLogged, is_success_http, hs]
      · simp [trigger_alarm, errorLogged, is_success_http, hs]
    | transportFailure msg =>
      simp [trigger_alarm, errorLogged, is_success_http]

/-- Witness for C6: a fire whose webhook answers 500 still re-arms the
timer and stores the next occurrence, and logs an error. -/
theorem c6_witness :
    (({ store := [], timerTarget := some ⟨0, 6, 0, 0, 0⟩ } : SkillState).store.length ≤ 1) ∧
    (trigger_alarm { store := [], timerTarget := some ⟨0, 6, 0, 0, 0⟩ }
        (HttpResult.response 500 "internal server error") ⟨0, 6, 0, 1, 0⟩
        ⟨1, 6, 0, 0, 0⟩).state.timerTarget = some ⟨1, 6, 0, 0, 0⟩ ∧
    (trigger_alarm { store := [], timerTarget := some ⟨0, 6, 0, 0, 0⟩ }
        (HttpResult.response 500 "internal server error") ⟨0, 6, 0, 1, 0⟩
        ⟨1, 6, 0, 0, 0⟩).state.store =
      [{ name := "Default Cron Alarm", scheduled_time := some ⟨1, 6, 0, 0, 0⟩ }] ∧
    errorLogged (trigger_alarm { store := [], timerTarget := some ⟨0, 6, 0, 0, 0⟩ }
        (HttpResult.response 500 "internal server error") ⟨0, 6, 0, 1, 0⟩
        ⟨1, 6, 0, 0, 0⟩) =
      !is_success_http (HttpResult.response 500 "internal server error") :=
  ⟨by decide,
    (c6_fire_always_rearms _ _ _ _ (by decide)).1,
    (c6_fire_always_rearms _ _ _ _ (by decide)).2.1,
    (c6_fire_always_rearms
      { store := [], timerTarget := some ⟨0, 6, 0, 0, 0⟩ }
      (HttpResult.response 500 "internal server error") ⟨0, 6, 0, 1, 0⟩
      ⟨1, 6, 0, 0, 0⟩ (by decide)).2.2⟩

/-- Claim C7: on the words obtained by stripping punctuation,
lowercasing and splitting the request text, matching returns none
exactly when no action's full keyword set is satisfied, and returns an
action exactly when all of that action's keywords occur among the words
and no earlier action in enumeration order (Help, Set, Skip, Break,
Continue, GetActive) has all of its keywords among the words. -/
theorem c7_first_matching_action (text : String) :
    (find_matching_action text = none ↔
      ∀ a : Action, actionMatches a (textWords text) = false) ∧
    (∀ a : Action, find_matching_action text = some a ↔
      (actionMatches a (textWords text) = true ∧
        ∀ b ∈ actionsBefore a, actionMatches b (textWords text) = false)) := by
  simp only [action_forall]
  rw [show find_matching_action text =
      actionOrder.find? (fun a => actionMatches a (textWords text)) from rfl]
  cases hH : actionMatches Action.HELP (textWords text) <;>
  cases hS : actionMatches Action.SET (textWords text) <;>
  cases hK : actionMatches Action.SKIP (textWords text) <;>
  cases hB : actionMatches Action.BREAK (textWords text) <;>
  cases hC : actionMatches Action.CONTINUE (textWords text) <;>
  cases hG : actionMatches Action.GET_ACTIVE (textWords text) <;>
    simp [actionOrder, List.find?, hH, hS, hK, hB, hC, hG, actionsBefore]

/-- Witness for C7: "Please set an alarm, with punctuation!" matches the
Set action (keyword "set" present after cleaning, and "help" absent). -/
theorem c7_witness :
    find_matching_action "Please SET an alarm." = some Action.SET :=
  ((c7_first_matching_action "Please SET an alarm.").2 Action.SET).mpr (by decide)

end AlarmSkill
